import Mathlib

/-!
Verification of the reference-data / postal-code layer of
SistemaTransportePacientes (static/js/cidades.js, static/js/especialidades.js,
static/js/viacep.js).

The JavaScript is shallowly embedded: DOM field contents become explicit
record values, `localStorage` becomes an explicit cache slot value,
network I/O becomes an oracle argument (`Option` of the decoded response),
and timestamps become integers (epoch milliseconds).  Every definition
mirrors one function of the source; the viacep.js definitions follow the
second (final) `ViaCEP` class in that file, which is the one the spec and
the claims reference.
-/

/-! ### ViaCEP: CEP mask (`ViaCEP.formatCEP`) -/

/-- Digits kept by `value.replace(/\D/g, '')`. -/
def stripNonDigitsL (cs : List Char) : List Char :=
  cs.filter Char.isDigit

/-- `value.replace(/\D/g, '')` on a string. -/
def stripNonDigits (s : String) : String :=
  ⟨stripNonDigitsL s.data⟩

/-- One attempt of the regex `(\d{5})(\d{1,3})` at the start of `cs`:
group 1 is five digits, group 2 greedily takes up to three further digits.
On a match, returns the replacement `$1-$2` together with the unmatched
remainder of the string. -/
def tryMaskMatch (cs : List Char) : Option (List Char × List Char) :=
  let g1 := cs.take 5
  let rest := cs.drop 5
  let g2 := (rest.takeWhile Char.isDigit).take 3
  if g1.length = 5 ∧ g1.all Char.isDigit = true ∧ 1 ≤ g2.length then
    some (g1 ++ '-' :: g2, rest.drop g2.length)
  else none

/-- `value.replace(/(\d{5})(\d{1,3})/, '$1-$2')`: replace the leftmost
match, keep everything else. -/
def maskReplaceFirst : List Char → List Char
  | [] => []
  | c :: cs =>
    match tryMaskMatch (c :: cs) with
    | some (repl, post) => repl ++ post
    | none => c :: maskReplaceFirst cs

/-- `ViaCEP.formatCEP` (viacep.js): strip non-digits; if at least six digits
remain, apply the `(\d{5})(\d{1,3})` → `$1-$2` replacement; finally
truncate the field value to nine characters when it is longer. -/
def formatCEP (s : String) : String :=
  let v := stripNonDigitsL s.data
  let v2 := if 6 ≤ v.length then maskReplaceFirst v else v
  if 9 < v2.length then ⟨v2.take 9⟩ else ⟨v2⟩

example : formatCEP "01310000" = "01310-000" := by decide
example : formatCEP "013100001234" = "01310-000" := by decide
example : formatCEP "01a31b0-00c0" = "01310-000" := by decide
example : formatCEP "0131" = "0131" := by decide
example : formatCEP "013100" = "01310-0" := by decide

/-! ### ViaCEP: format validation (`ViaCEP.validarFormatoCEP`) -/

/-- The whitelist of five-character starts that `validarFormatoCEP` accepts
for CEPs beginning with `0`. -/
def validCepStarts : List String :=
  ["01000", "02000", "03000", "04000", "05000", "08000", "09000"]

/-- The regex `/^(\d)\1{7}$/`: eight characters, the first a digit and all
the rest equal to it. -/
def allSameDigit8 (cs : List Char) : Bool :=
  match cs with
  | c :: rest => c.isDigit && rest.all (· == c) && cs.length == 8
  | [] => false

/-- `ViaCEP.validarFormatoCEP` (viacep.js, second class): requires
`/^\d{8}$/`, rejects `/^(\d)\1{7}$/`, and rejects any CEP starting with
`'0'` unless one of the whitelisted five-character starts is a prefix. -/
def validarFormatoCEP (cep : String) : Bool :=
  if ¬ (cep.data.length = 8 ∧ cep.data.all Char.isDigit = true) then false
  else if allSameDigit8 cep.data then false
  else if ['0'].isPrefixOf cep.data ∧ ¬ (validCepStarts.any (fun p => p.data.isPrefixOf cep.data)) = true then false
  else true

example : validarFormatoCEP "13700000" = true := by decide
example : validarFormatoCEP "00000000" = false := by decide
example : validarFormatoCEP "11111111" = false := by decide
example : validarFormatoCEP "01000123" = true := by decide
example : validarFormatoCEP "01310000" = false := by decide

/-! ### ViaCEP: lookup and field fan-out -/

/-- Decoded JSON of the address-lookup endpoint.  An absent JSON field is
`none`; a present one is `some`.  (`erro` is truthy exactly on the
not-found response.) -/
structure LookupData where
  erro : Bool
  logradouro : Option String
  bairro : Option String
  localidade : Option String
  uf : Option String
deriving DecidableEq, Repr

/-- JavaScript truthiness of an optional string field: `undefined` and the
empty string are falsy. -/
def jsTruthy : Option String → Bool
  | none => false
  | some s => s ≠ ""

/-- The four dependent form fields written by the resolver. -/
structure Fields where
  logradouro : String
  bairro : String
  cidade : String
  uf : String
deriving DecidableEq, Repr

/-- `ViaCEP.limparCampos`: clear all four dependent fields. -/
def limparCampos (_f : Fields) : Fields :=
  ⟨"", "", "", ""⟩

/-- `ViaCEP.preencherCampos`: write each response field that is present and
truthy into the matching form field, leaving the others untouched.  The
house-number field receives focus (returned separately by the caller). -/
def preencherCampos (d : LookupData) (f : Fields) : Fields :=
  { logradouro := if jsTruthy d.logradouro then d.logradouro.getD "" else f.logradouro
    bairro := if jsTruthy d.bairro then d.bairro.getD "" else f.bairro
    cidade := if jsTruthy d.localidade then d.localidade.getD "" else f.cidade
    uf := if jsTruthy d.uf then d.uf.getD "" else f.uf }

/-- An inline user message shown by `showSuccess` / `showError`. -/
inductive Msg where
  | success (text : String)
  | error (text : String)
deriving DecidableEq, Repr

/-- Processing of one lookup response inside `buscarEndereco`'s `try`
block: not-found clears the fields; a response missing `logradouro` or
`localidade` only warns; a complete response is fanned out and the
house-number field focused (the `Bool` component). -/
def processResponse (f : Fields) (d : LookupData) : Fields × Option Msg × Bool :=
  if d.erro then
    (limparCampos f, some (.error "CEP não encontrado!"), false)
  else if jsTruthy d.logradouro = false ∨ jsTruthy d.localidade = false then
    (f, some (.error "CEP encontrado, mas dados incompletos!"), false)
  else
    (preencherCampos d f, some (.success "Endereço encontrado e validado! ✅"), true)

/-- Outcome of one `buscarEndereco` run: final dependent fields, whether a
network request was issued, the inline message, and whether the
house-number field was focused. -/
structure BuscaResult where
  fields : Fields
  fetchIssued : Bool
  msg : Option Msg
  numeroFocused : Bool
deriving DecidableEq, Repr

/-- `ViaCEP.buscarEndereco` (viacep.js, second class).  `fieldValue` is the
CEP field's content on focus-loss, `f` the current dependent fields, and
`resp` the network oracle: `none` models any transport error, `some d` the
decoded JSON. -/
def buscarEndereco (fieldValue : String) (f : Fields) (resp : Option LookupData) : BuscaResult :=
  let cep := stripNonDigits fieldValue
  if cep.length ≠ 8 then
    ⟨limparCampos f, false, none, false⟩
  else if validarFormatoCEP cep = false then
    ⟨limparCampos f, false, some (.error "CEP com formato inválido!"), false⟩
  else
    match resp with
    | none => ⟨f, true, some (.error "Erro ao buscar CEP. Verifique sua conexão."), false⟩
    | some d =>
      let r := processResponse f d
      ⟨r.1, true, r.2.1, r.2.2⟩

/-- Responses of several in-flight lookups landing in arrival order: each
one is processed unconditionally by the response-handling code (the source
keeps no request token), so each overwrites the previous outcome. -/
def settleResponses (f : Fields) (ds : List LookupData) : Fields :=
  ds.foldl (fun f d => (processResponse f d).1) f

def blankFields : Fields := ⟨"", "", "", ""⟩

/-! ### Dataset loaders: cache model (localStorage slot for one cache key) -/

/-- The persisted JSON cache entry `{ cidades|especialidades, timestamp,
total }` for a dataset key. -/
structure CacheEntry where
  payload : List String
  timestamp : Nat
  total : Nat
deriving DecidableEq, Repr

/-- The localStorage slot of one cache key: absent, present but not
parseable as the expected JSON, or a parsed entry. -/
inductive Slot where
  | empty
  | corrupt
  | entry (e : CacheEntry)
deriving DecidableEq, Repr

/-- `CidadesSP.cacheExpiry` (24 hours in milliseconds). -/
def cacheExpiryCidades : Int := 24 * 60 * 60 * 1000

/-- `EspecialidadesMedicas.cacheExpiry` (7 days in milliseconds). -/
def cacheExpiryEspecialidades : Int := 7 * 24 * 60 * 60 * 1000

/-- `CidadesSP.getCachedCidades`: return the payload while
`now - timestamp < cacheExpiry`; otherwise (or on a parse failure) remove
the entry and report a miss.  Returns the payload (or `none`) and the slot
after the call. -/
def getCachedCidades (slot : Slot) (now : Nat) : Option (List String) × Slot :=
  match slot with
  | .empty => (none, .empty)
  | .corrupt => (none, .empty)
  | .entry e =>
    if (now : Int) - (e.timestamp : Int) < cacheExpiryCidades then
      (some e.payload, .entry e)
    else
      (none, .empty)

/-- `EspecialidadesMedicas.getCachedEspecialidades`: same logic with the
seven-day expiry. -/
def getCachedEspecialidades (slot : Slot) (now : Nat) : Option (List String) × Slot :=
  match slot with
  | .empty => (none, .empty)
  | .corrupt => (none, .empty)
  | .entry e =>
    if (now : Int) - (e.timestamp : Int) < cacheExpiryEspecialidades then
      (some e.payload, .entry e)
    else
      (none, .empty)

/-- `CidadesSP.setCachedCidades`: store the list with the current
timestamp and its length as `total`. -/
def setCachedCidades (cidades : List String) (now : Nat) : Slot :=
  .entry ⟨cidades, now, cidades.length⟩

/-- `EspecialidadesMedicas.setCachedEspecialidades`. -/
def setCachedEspecialidades (especialidades : List String) (now : Nat) : Slot :=
  .entry ⟨especialidades, now, especialidades.length⟩

/-! ### Normalization of fetched payloads -/

/-- Model of the base character used by `localeCompare(b, 'pt-BR',
{ sensitivity: 'base' })`: strip the Portuguese diacritics and fold case,
so that characters differing only in case or accent compare equal. -/
def baseChar (c : Char) : Char :=
  match c with
  | 'á' | 'à' | 'â' | 'ã' | 'ä' | 'Á' | 'À' | 'Â' | 'Ã' | 'Ä' => 'a'
  | 'é' | 'è' | 'ê' | 'ë' | 'É' | 'È' | 'Ê' | 'Ë' => 'e'
  | 'í' | 'ì' | 'î' | 'ï' | 'Í' | 'Ì' | 'Î' | 'Ï' => 'i'
  | 'ó' | 'ò' | 'ô' | 'õ' | 'ö' | 'Ó' | 'Ò' | 'Ô' | 'Õ' | 'Ö' => 'o'
  | 'ú' | 'ù' | 'û' | 'ü' | 'Ú' | 'Ù' | 'Û' | 'Ü' => 'u'
  | 'ç' | 'Ç' => 'c'
  | 'ñ' | 'Ñ' => 'n'
  | _ => c.toLower

/-- Collation key of a string under the pt-BR base-sensitivity model
(compared as its character list: code-point lexicographic order). -/
def baseKey (s : String) : List Char :=
  s.data.map baseChar

/-- The comparator `(a, b) => a.localeCompare(b, 'pt-BR', { sensitivity:
'base' })`, as the ordering it induces: `a` sorts no later than `b`. -/
def ptBRBaseLe (a b : String) : Prop :=
  baseKey a ≤ baseKey b

instance : DecidableRel ptBRBaseLe :=
  fun a b => inferInstanceAs (Decidable (baseKey a ≤ baseKey b))

instance : IsTotal String ptBRBaseLe :=
  ⟨fun a b => le_total (baseKey a) (baseKey b)⟩

instance : IsTrans String ptBRBaseLe :=
  ⟨fun _ _ _ h h' => le_trans h h'⟩

/-- JavaScript's default `Array.prototype.sort()` comparator on strings
(code-unit order), modelled by the lexicographic order on the character
lists. -/
def jsDefaultLe (a b : String) : Prop := a.data ≤ b.data

instance : DecidableRel jsDefaultLe :=
  fun a b => inferInstanceAs (Decidable (a.data ≤ b.data))

instance : IsTotal String jsDefaultLe := ⟨fun a b => le_total a.data b.data⟩

instance : IsTrans String jsDefaultLe := ⟨fun _ _ _ h h' => le_trans h h'⟩

/-- `[...new Set(xs)]`: remove duplicates by exact equality, keeping the
first occurrence of each element.  `seen` accumulates elements already
emitted. -/
def setDedup (seen : List String) : List String → List String
  | [] => []
  | x :: xs => if x ∈ seen then setDedup seen xs else x :: setDedup (x :: seen) xs

/-- cidades.js line 90: `[...new Set(municipios.map(m => m.nome))]` sorted
with the pt-BR base-sensitivity comparator (JS sort is stable; the stable
`insertionSort` models it). -/
def normalizeCidades (nomes : List String) : List String :=
  List.insertionSort ptBRBaseLe (setDedup [] nomes)

/-- especialidades.js line 68: `data.especialidades.sort()` — default
code-unit sort, no deduplication. -/
def normalizeEspecialidades (especialidades : List String) : List String :=
  List.insertionSort jsDefaultLe especialidades

example : normalizeCidades ["Osasco", "Águas de Lindóia", "Bauru", "Osasco"] =
    ["Águas de Lindóia", "Bauru", "Osasco"] := by decide
example : normalizeEspecialidades ["Urologia", "Cardiologia"] =
    ["Cardiologia", "Urologia"] := by decide

/-! ### Dataset loaders: load paths -/

/-- The embedded fallback list of cidades.js (used on any fetch failure). -/
def fallbackCidades : List String :=
  ["Adamantina", "Águas de Lindóia", "Americana", "Araçatuba", "Araraquara",
   "Araras", "Assis", "Atibaia", "Barretos", "Barueri", "Bauru", "Botucatu",
   "Bragança Paulista", "Campinas", "Campos do Jordão", "Carapicuíba",
   "Caraguatatuba", "Casa Branca", "Catanduva", "Cosmópolis", "Cotia",
   "Cruzeiro", "Cubatão", "Diadema", "Ferraz de Vasconcelos", "Franca",
   "Franco da Rocha", "Guaratinguetá", "Guarujá", "Guarulhos", "Hortolândia",
   "Indaiatuba", "Itanhaém", "Itapetininga", "Itapevi", "Itu", "Jacareí",
   "Jaú", "Jundiaí", "Leme", "Limeira", "Marília", "Mauá", "Mogi das Cruzes",
   "Mogi Guaçu", "Osasco", "Ourinhos", "Paulínia", "Piracicaba", "Praia Grande",
   "Presidente Prudente", "Ribeirão Pires", "Ribeirão Preto", "Rio Claro",
   "Salto", "Santa Bárbara d\x27Oeste", "Santo André", "Santos", "São Bernardo do Campo",
   "São Caetano do Sul", "São Carlos", "São João da Boa Vista", "São José dos Campos",
   "São Paulo", "São Roque", "São Sebastião", "São Vicente", "Sorocaba",
   "Sumaré", "Suzano", "Taboão da Serra", "Taubaté", "Ubatuba", "Valinhos",
   "Vinhedo", "Votuporanga"]

/-- The embedded fallback list of especialidades.js. -/
def fallbackEspecialidades : List String :=
  ["Clínica Geral", "Cardiologia", "Dermatologia", "Ginecologia",
   "Neurologia", "Oftalmologia", "Ortopedia", "Pediatria",
   "Psiquiatria", "Urologia", "Exames Laboratoriais", "Exames de Imagem",
   "Fisioterapia", "Consulta de Retorno", "Primeira Consulta"]

/-- Outcome of one `loadCidades` / `loadEspecialidades` call: the returned
list, the cache slot afterwards, and whether a network request was issued. -/
structure LoadResult where
  items : List String
  slot : Slot
  fetched : Bool
deriving DecidableEq, Repr

/-- The network branch of `CidadesSP.loadCidades` (the `try`/`catch` after
the cache miss).  `fetchResult` is the oracle for the IBGE request:
`none` models any transport/timeout/HTTP-status/parse error or a non-array
body, `some nomes` the extracted `municipio.nome` list.  An empty array
throws (`Dados inválidos`) and falls back; the fallback is never cached. -/
def loadCidadesNetwork (slot : Slot) (now : Nat) (fetchResult : Option (List String)) :
    LoadResult :=
  match fetchResult with
  | some nomes =>
    if nomes.length = 0 then
      ⟨fallbackCidades, slot, true⟩
    else
      let cidades := normalizeCidades nomes
      ⟨cidades, setCachedCidades cidades now, true⟩
  | none => ⟨fallbackCidades, slot, true⟩

/-- `CidadesSP.loadCidades`: serve a cached payload only when it is present
and non-empty (`cachedCidades && cachedCidades.length > 0`); otherwise run
the network branch. -/
def loadCidades (slot : Slot) (now : Nat) (fetchResult : Option (List String)) :
    LoadResult :=
  match getCachedCidades slot now with
  | (some cached, slot') =>
    if 0 < cached.length then ⟨cached, slot', false⟩
    else loadCidadesNetwork slot' now fetchResult
  | (none, slot') => loadCidadesNetwork slot' now fetchResult

/-- The network branch of `EspecialidadesMedicas.loadEspecialidades`.
`none` models any transport/HTTP/parse error (including a body without the
`especialidades` array); `some l` that array.  Unlike the cities loader
there is no emptiness check: the sorted list is cached and returned even
when empty. -/
def loadEspecialidadesNetwork (slot : Slot) (now : Nat)
    (fetchResult : Option (List String)) : LoadResult :=
  match fetchResult with
  | some l =>
    let especialidades := normalizeEspecialidades l
    ⟨especialidades, setCachedEspecialidades especialidades now, true⟩
  | none => ⟨fallbackEspecialidades, slot, true⟩

/-- `EspecialidadesMedicas.loadEspecialidades`: cached payload only when
present and non-empty, otherwise the network branch. -/
def loadEspecialidades (slot : Slot) (now : Nat) (fetchResult : Option (List String)) :
    LoadResult :=
  match getCachedEspecialidades slot now with
  | (some cached, slot') =>
    if 0 < cached.length then ⟨cached, slot', false⟩
    else loadEspecialidadesNetwork slot' now fetchResult
  | (none, slot') => loadEspecialidadesNetwork slot' now fetchResult

/-! ### Field binding: select-change handlers -/

/-- The paired free-text input as the change handlers see it. -/
structure BindState where
  value : String
  placeholder : String
  focused : Bool
  caret : Option Nat
deriving DecidableEq, Repr

/-- The `change` listener of `CidadesSP.createCidadeSelect`: a concrete
city writes `cidade + ", SP"`, focuses the input and (after the timeout)
puts the caret at the end; `outra` clears for free typing; the placeholder
option resets the field. -/
def cidadeSelectChange (selectedValue : String) (inp : BindState) : BindState :=
  if selectedValue ≠ "" ∧ selectedValue ≠ "outra" then
    let nv := selectedValue ++ ", SP"
    ⟨nv, "Complete com rua, número e bairro se necessário", true, some nv.length⟩
  else if selectedValue = "outra" then
    ⟨"", "Digite o endereço completo: Rua, nº, bairro, cidade", true, inp.caret⟩
  else
    ⟨"", "Endereço será preenchido automaticamente pela seleção acima",
      inp.focused, inp.caret⟩

/-- The `change` listener of
`EspecialidadesMedicas.createEspecialidadeSelect`: a concrete specialty is
written verbatim, the input focused and the caret moved to the end;
`outra` clears for free typing; the placeholder option does nothing. -/
def especialidadeSelectChange (selectedValue : String) (inp : BindState) : BindState :=
  if selectedValue ≠ "" ∧ selectedValue ≠ "outra" then
    ⟨selectedValue, inp.placeholder, true, some selectedValue.length⟩
  else if selectedValue = "outra" then
    ⟨"", "Digite a especialidade médica", true, inp.caret⟩
  else
    inp

def blankBind : BindState := ⟨"", "", false, none⟩

/-! ### Helper lemmas -/

theorem setDedup_nodup_and_fresh (l : List String) :
    ∀ seen : List String,
      (setDedup seen l).Nodup ∧ ∀ x ∈ setDedup seen l, x ∉ seen := by
  induction l with
  | nil => intro seen; simp [setDedup]
  | cons x xs ih =>
    intro seen
    by_cases hx : x ∈ seen
    · simpa [setDedup, hx] using ih seen
    · have h' := ih (x :: seen)
      refine ⟨?_, ?_⟩
      · simp only [setDedup, hx, if_false]
        exact List.nodup_cons.mpr
          ⟨fun hmem => (h'.2 x hmem) (List.mem_cons_self x seen), h'.1⟩
      · intro y hy
        simp only [setDedup, hx, if_false, List.mem_cons] at hy
        rcases hy with rfl | hy
        · exact hx
        · exact fun hys => (h'.2 y hy) (List.mem_cons_of_mem x hys)

theorem loadCidadesNetwork_fetched (slot : Slot) (now : Nat)
    (f : Option (List String)) : (loadCidadesNetwork slot now f).fetched = true := by
  cases f with
  | none => rfl
  | some l =>
    by_cases h : l.length = 0 <;> simp [loadCidadesNetwork, h]

theorem loadEspecialidadesNetwork_fetched (slot : Slot) (now : Nat)
    (f : Option (List String)) : (loadEspecialidadesNetwork slot now f).fetched = true := by
  cases f with
  | none => rfl
  | some l => rfl

/-- Case-insensitive distinctness of the entries of a list, the invariant
asserted by the spec for loader output (`no two entries compare equal
ignoring case`). -/
def caseInsensitiveNodup (l : List String) : Prop :=
  l.Pairwise (fun a b => a.data.map Char.toLower ≠ b.data.map Char.toLower)

instance (l : List String) : Decidable (caseInsensitiveNodup l) :=
  inferInstanceAs (Decidable (l.Pairwise _))

/-! ### Claim C3 -/

/-- C3 counterexample: the claim "every fetched list is deduplicated
case-insensitively" is false.  The cities loader deduplicates only by
exact equality, so `Campinas` and `CAMPINAS` both survive, and the
specialties loader performs no deduplication at all. -/
theorem c3_case_insensitive_dedup_fails :
    ¬ caseInsensitiveNodup (normalizeCidades ["Campinas", "CAMPINAS"]) ∧
    ¬ caseInsensitiveNodup (normalizeEspecialidades ["Cardiologia", "CARDIOLOGIA"]) := by
  decide

/-- C3 amended: the cities loader output has no two exactly equal entries
and is sorted by the pt-BR base-sensitivity comparator (it is a
permutation of the exact-deduplicated input); the specialties loader
output is just the input sorted by the default code-unit comparator, with
no deduplication.  Neither loader deduplicates case-insensitively. -/
theorem c3_normalization_characterization (nomes especialidades : List String) :
    (normalizeCidades nomes).Nodup ∧
    List.Sorted ptBRBaseLe (normalizeCidades nomes) ∧
    (normalizeCidades nomes).Perm (setDedup [] nomes) ∧
    (normalizeEspecialidades especialidades).Perm especialidades ∧
    List.Sorted jsDefaultLe (normalizeEspecialidades especialidades) := by
  refine ⟨?_, ?_, ?_, ?_, ?_⟩
  · exact (List.perm_insertionSort ptBRBaseLe (setDedup [] nomes)).symm.nodup
      (setDedup_nodup_and_fresh nomes []).1
  · exact List.sorted_insertionSort ptBRBaseLe (setDedup [] nomes)
  · exact List.perm_insertionSort ptBRBaseLe (setDedup [] nomes)
  · exact List.perm_insertionSort jsDefaultLe especialidades
  · exact List.sorted_insertionSort jsDefaultLe especialidades

/-! ### Claims C1, C5, C10 -/

/-- C1 counterexample: an unexpired cache entry whose payload is the empty
list does not short-circuit the load — a network request is issued (and
its payload is not returned), because the source additionally requires
`cachedCidades.length > 0`. -/
theorem c1_empty_unexpired_entry_does_not_short_circuit :
    (loadCidades (.entry ⟨[], 0, 0⟩) 0 none).fetched = true ∧
    (loadCidades (.entry ⟨[], 0, 0⟩) 0 none).items ≠ [] := by decide

/-- C1 amended: a warm, unexpired cache entry with a *non-empty* payload
short-circuits all I/O: `load` returns the cached payload unchanged,
issues no network request and leaves the entry in place — for both the
cities and the specialties loader. -/
theorem c1_warm_nonempty_cache_short_circuits
    (p : List String) (tot ts now : Nat) (f : Option (List String)) (hp : p ≠ []) :
    ((now : Int) - (ts : Int) < cacheExpiryCidades →
      loadCidades (.entry ⟨p, ts, tot⟩) now f = ⟨p, .entry ⟨p, ts, tot⟩, false⟩) ∧
    ((now : Int) - (ts : Int) < cacheExpiryEspecialidades →
      loadEspecialidades (.entry ⟨p, ts, tot⟩) now f = ⟨p, .entry ⟨p, ts, tot⟩, false⟩) := by
  have hlen : 0 < p.length := List.length_pos.mpr hp
  constructor
  · intro h
    simp [loadCidades, getCachedCidades, h, hlen]
  · intro h
    simp [loadEspecialidades, getCachedEspecialidades, h, hlen]

theorem c1_warm_nonempty_cache_short_circuits_witness :
    loadCidades (.entry ⟨["São Paulo"], 0, 1⟩) 0 none
      = ⟨["São Paulo"], .entry ⟨["São Paulo"], 0, 1⟩, false⟩ ∧
    loadEspecialidades (.entry ⟨["São Paulo"], 0, 1⟩) 0 none
      = ⟨["São Paulo"], .entry ⟨["São Paulo"], 0, 1⟩, false⟩ := by
  have h := c1_warm_nonempty_cache_short_circuits ["São Paulo"] 1 0 0 none (by decide)
  exact ⟨h.1 (by decide), h.2 (by decide)⟩

/-- C5: once a cached entry's age reaches its ttl, `load` removes it from
storage, behaves exactly like a load on an empty cache (so the expired
payload is never served), issues a network request, and only on fetch
failure resorts to the embedded fallback — for both loaders. -/
theorem c5_expired_entry_purged_network_before_fallback
    (p : List String) (tot ts now : Nat) (f : Option (List String)) :
    (cacheExpiryCidades ≤ (now : Int) - (ts : Int) →
      loadCidades (.entry ⟨p, ts, tot⟩) now f = loadCidades .empty now f ∧
      (loadCidades (.entry ⟨p, ts, tot⟩) now f).fetched = true ∧
      (loadCidades (.entry ⟨p, ts, tot⟩) now f).slot ≠ .entry ⟨p, ts, tot⟩ ∧
      (f = none →
        loadCidades (.entry ⟨p, ts, tot⟩) now f = ⟨fallbackCidades, .empty, true⟩)) ∧
    (cacheExpiryEspecialidades ≤ (now : Int) - (ts : Int) →
      loadEspecialidades (.entry ⟨p, ts, tot⟩) now f = loadEspecialidades .empty now f ∧
      (loadEspecialidades (.entry ⟨p, ts, tot⟩) now f).fetched = true ∧
      (loadEspecialidades (.entry ⟨p, ts, tot⟩) now f).slot ≠ .entry ⟨p, ts, tot⟩ ∧
      (f = none →
        loadEspecialidades (.entry ⟨p, ts, tot⟩) now f
          = ⟨fallbackEspecialidades, .empty, true⟩)) := by
  constructor
  · intro h
    have hts : ts ≠ now := by
      have hpos : (0 : Int) < cacheExpiryCidades := by norm_num [cacheExpiryCidades]
      intro heq; rw [heq] at h; omega
    have hmiss : loadCidades (.entry ⟨p, ts, tot⟩) now f = loadCidadesNetwork .empty now f := by
      simp [loadCidades, getCachedCidades, not_lt.mpr h]
    have hempty : loadCidades .empty now f = loadCidadesNetwork .empty now f := by
      simp [loadCidades, getCachedCidades]
    refine ⟨hmiss.trans hempty.symm, ?_, ?_, ?_⟩
    · rw [hmiss]; exact loadCidadesNetwork_fetched _ _ _
    · rw [hmiss]
      cases f with
      | none => simp [loadCidadesNetwork]
      | some l =>
        by_cases hl : l.length = 0
        · simp [loadCidadesNetwork, hl]
        · simp only [loadCidadesNetwork, hl, if_false]
          intro hcontra
          exact hts (congrArg (fun s => match s with
            | Slot.entry e => e.timestamp
            | _ => ts) hcontra).symm
    · intro hf; rw [hmiss, hf]; rfl
  · intro h
    have hts : ts ≠ now := by
      have hpos : (0 : Int) < cacheExpiryEspecialidades := by
        norm_num [cacheExpiryEspecialidades]
      intro heq; rw [heq] at h; omega
    have hmiss : loadEspecialidades (.entry ⟨p, ts, tot⟩) now f
        = loadEspecialidadesNetwork .empty now f := by
      simp [loadEspecialidades, getCachedEspecialidades, not_lt.mpr h]
    have hempty : loadEspecialidades .empty now f
        = loadEspecialidadesNetwork .empty now f := by
      simp [loadEspecialidades, getCachedEspecialidades]
    refine ⟨hmiss.trans hempty.symm, ?_, ?_, ?_⟩
    · rw [hmiss]; exact loadEspecialidadesNetwork_fetched _ _ _
    · rw [hmiss]
      cases f with
      | none => simp [loadEspecialidadesNetwork]
      | some l =>
        simp only [loadEspecialidadesNetwork]
        intro hcontra
        exact hts (congrArg (fun s => match s with
          | Slot.entry e => e.timestamp
          | _ => ts) hcontra).symm
    · intro hf; rw [hmiss, hf]; rfl

theorem c5_expired_entry_purged_witness :
    loadCidades (.entry ⟨["Velha"], 0, 1⟩) 604800000 none
      = loadCidades .empty 604800000 none ∧
    (loadCidades (.entry ⟨["Velha"], 0, 1⟩) 604800000 none).fetched = true ∧
    (loadCidades (.entry ⟨["Velha"], 0, 1⟩) 604800000 none).slot
      ≠ .entry ⟨["Velha"], 0, 1⟩ ∧
    loadCidades (.entry ⟨["Velha"], 0, 1⟩) 604800000 none
      = ⟨fallbackCidades, .empty, true⟩ ∧
    loadEspecialidades (.entry ⟨["Velha"], 0, 1⟩) 604800000 none
      = loadEspecialidades .empty 604800000 none ∧
    (loadEspecialidades (.entry ⟨["Velha"], 0, 1⟩) 604800000 none).fetched = true ∧
    (loadEspecialidades (.entry ⟨["Velha"], 0, 1⟩) 604800000 none).slot
      ≠ .entry ⟨["Velha"], 0, 1⟩ ∧
    loadEspecialidades (.entry ⟨["Velha"], 0, 1⟩) 604800000 none
      = ⟨fallbackEspecialidades, .empty, true⟩ := by
  have h := c5_expired_entry_purged_network_before_fallback ["Velha"] 1 0 604800000 none
  have h1 := h.1 (by decide)
  have h2 := h.2 (by decide)
  exact ⟨h1.1, h1.2.1, h1.2.2.1, h1.2.2.2 rfl, h2.1, h2.2.1, h2.2.2.1, h2.2.2.2 rfl⟩

/-- C10: an unexpired, parseable cache entry whose payload list is empty is
treated as a cache miss: the load proceeds to the network branch (the
cached empty list is never returned), a network request is issued, on
fetch failure the embedded fallback is returned, and on a successful fetch
the normalized network payload is returned — for both loaders. -/
theorem c10_empty_cached_payload_treated_as_miss
    (tot ts now : Nat) (f : Option (List String)) :
    ((now : Int) - (ts : Int) < cacheExpiryCidades →
      loadCidades (.entry ⟨[], ts, tot⟩) now f
        = loadCidadesNetwork (.entry ⟨[], ts, tot⟩) now f ∧
      (loadCidades (.entry ⟨[], ts, tot⟩) now f).fetched = true ∧
      (f = none →
        loadCidades (.entry ⟨[], ts, tot⟩) now f
          = ⟨fallbackCidades, .entry ⟨[], ts, tot⟩, true⟩) ∧
      (∀ l, f = some l → l ≠ [] →
        (loadCidades (.entry ⟨[], ts, tot⟩) now f).items = normalizeCidades l)) ∧
    ((now : Int) - (ts : Int) < cacheExpiryEspecialidades →
      loadEspecialidades (.entry ⟨[], ts, tot⟩) now f
        = loadEspecialidadesNetwork (.entry ⟨[], ts, tot⟩) now f ∧
      (loadEspecialidades (.entry ⟨[], ts, tot⟩) now f).fetched = true ∧
      (f = none →
        loadEspecialidades (.entry ⟨[], ts, tot⟩) now f
          = ⟨fallbackEspecialidades, .entry ⟨[], ts, tot⟩, true⟩) ∧
      (∀ l, f = some l →
        (loadEspecialidades (.entry ⟨[], ts, tot⟩) now f).items
          = normalizeEspecialidades l)) := by
  constructor
  · intro h
    have hmiss : loadCidades (.entry ⟨[], ts, tot⟩) now f
        = loadCidadesNetwork (.entry ⟨[], ts, tot⟩) now f := by
      simp [loadCidades, getCachedCidades, h]
    refine ⟨hmiss, hmiss ▸ loadCidadesNetwork_fetched _ _ _, ?_, ?_⟩
    · intro hf; rw [hmiss, hf]; rfl
    · intro l hf hl
      rw [hmiss, hf]
      have hlen : ¬ l.length = 0 := by
        simpa [List.length_eq_zero] using hl
      simp [loadCidadesNetwork, hlen]
  · intro h
    have hmiss : loadEspecialidades (.entry ⟨[], ts, tot⟩) now f
        = loadEspecialidadesNetwork (.entry ⟨[], ts, tot⟩) now f := by
      simp [loadEspecialidades, getCachedEspecialidades, h]
    refine ⟨hmiss, hmiss ▸ loadEspecialidadesNetwork_fetched _ _ _, ?_, ?_⟩
    · intro hf; rw [hmiss, hf]; rfl
    · intro l hf
      rw [hmiss, hf]
      rfl

theorem c10_empty_cached_payload_witness :
    loadCidades (.entry ⟨[], 0, 0⟩) 0 (some ["Osasco"])
      = loadCidadesNetwork (.entry ⟨[], 0, 0⟩) 0 (some ["Osasco"]) ∧
    (loadCidades (.entry ⟨[], 0, 0⟩) 0 (some ["Osasco"])).fetched = true ∧
    (loadCidades (.entry ⟨[], 0, 0⟩) 0 (some ["Osasco"])).items
      = normalizeCidades ["Osasco"] ∧
    loadEspecialidades (.entry ⟨[], 0, 0⟩) 0 none
      = ⟨fallbackEspecialidades, .entry ⟨[], 0, 0⟩, true⟩ := by
  have hc := c10_empty_cached_payload_treated_as_miss 0 0 0 (some ["Osasco"])
  have he := c10_empty_cached_payload_treated_as_miss 0 0 0 (none : Option (List String))
  have hc1 := hc.1 (by decide)
  have he2 := he.2 (by decide)
  exact ⟨hc1.1, hc1.2.1, hc1.2.2.2 ["Osasco"] rfl (by decide), he2.2.2.1 rfl⟩

/-! ### Claims C2, C4, C6, C7 -/

/-- The ViaCEP response for CEP 01310000 (Avenida Paulista, São Paulo/SP). -/
def respostaPaulista : LookupData :=
  ⟨false, some "Avenida Paulista", some "Bela Vista", some "São Paulo", some "SP"⟩

/-- C2: evaluation at the failing input.  `validarFormatoCEP` rejects the
genuine CEP `01310000` (its zero-prefix whitelist only accepts CEPs whose
first five digits are exactly 01000/02000/03000/04000/05000/08000/09000),
so on focus-loss `buscarEndereco` shows the format error and clears the
dependent fields: no lookup is issued, nothing is populated and the
house-number field is not focused, even though the remote service would
resolve the code to Avenida Paulista / São Paulo / SP. -/
theorem c2_valid_cep_rejected_before_lookup :
    validarFormatoCEP "01310000" = false ∧
    buscarEndereco "01310-000" blankFields (some respostaPaulista)
      = ⟨blankFields, false, some (.error "CEP com formato inválido!"), false⟩ := by
  decide

/-- Response A of the race in C4 (the first, stale lookup). -/
def respostaA : LookupData :=
  ⟨false, some "Rua A", some "Bairro A", some "Cidade A", some "SP"⟩

/-- Response B of the race in C4 (the latest lookup). -/
def respostaB : LookupData :=
  ⟨false, some "Rua B", some "Bairro B", some "Cidade B", some "RJ"⟩

/-- C4: evaluation at the failing schedule.  The source keeps no request
token, so when lookup A's response lands after lookup B's, it is processed
unconditionally and the final dependent-field state carries A's stale
address, not B's. -/
theorem c4_stale_response_overwrites_newer_state :
    settleResponses blankFields [respostaB, respostaA]
      = preencherCampos respostaA blankFields ∧
    (settleResponses blankFields [respostaB, respostaA]).logradouro = "Rua A" ∧
    (settleResponses blankFields [respostaB, respostaA]).logradouro ≠ "Rua B" := by
  decide

/-- A found-but-incomplete ViaCEP response: no street, but city and state
present. -/
def respostaIncompleta : LookupData :=
  ⟨false, none, none, some "São Paulo", some "SP"⟩

/-- C6 counterexample: for a response that is not flagged not-found but
lacks the street field, the resolver shows the distinct incompleteness
warning yet populates *nothing* — the city present in the response is not
written to the city field, contradicting the claimed
populate-what-is-present policy. -/
theorem c6_present_fields_not_populated :
    (buscarEndereco "01000-000" blankFields (some respostaIncompleta)).msg
      = some (.error "CEP encontrado, mas dados incompletos!") ∧
    (buscarEndereco "01000-000" blankFields (some respostaIncompleta)).fetchIssued
      = true ∧
    (buscarEndereco "01000-000" blankFields (some respostaIncompleta)).fields.cidade
      ≠ "São Paulo" := by
  decide

/-- C6 amended: a response that is not flagged not-found but is missing
the street or the city field surfaces the distinct incompleteness warning
and leaves every dependent field exactly as it was: no field is populated
and the house-number field is not focused. -/
theorem c6_incomplete_response_warns_without_populating
    (v : String) (f : Fields) (d : LookupData)
    (h8 : (stripNonDigits v).length = 8)
    (hv : validarFormatoCEP (stripNonDigits v) = true)
    (he : d.erro = false)
    (hm : jsTruthy d.logradouro = false ∨ jsTruthy d.localidade = false) :
    buscarEndereco v f (some d)
      = ⟨f, true, some (.error "CEP encontrado, mas dados incompletos!"), false⟩ := by
  rcases hm with hm | hm <;>
    simp [buscarEndereco, h8, hv, processResponse, he, hm]

theorem c6_incomplete_response_witness :
    buscarEndereco "01000-000" blankFields (some respostaIncompleta)
      = ⟨blankFields, true,
          some (.error "CEP encontrado, mas dados incompletos!"), false⟩ :=
  c6_incomplete_response_warns_without_populating "01000-000" blankFields
    respostaIncompleta (by decide) (by decide) rfl (Or.inl (by decide))

/-- C7: whenever the digit-stripped field value does not have exactly
eight digits, the focus-loss handler clears the dependent fields, shows no
message and issues no network request. -/
theorem c7_wrong_length_rejected_without_network
    (v : String) (f : Fields) (resp : Option LookupData)
    (h : (stripNonDigits v).length ≠ 8) :
    buscarEndereco v f resp = ⟨limparCampos f, false, none, false⟩ := by
  simp [buscarEndereco, h]

theorem c7_wrong_length_witness :
    buscarEndereco "123" blankFields (some respostaPaulista)
      = ⟨limparCampos blankFields, false, none, false⟩ :=
  c7_wrong_length_rejected_without_network "123" blankFields
    (some respostaPaulista) (by decide)

/-! ### Claim C9 -/

/-- C9 counterexample: choosing the concrete city `Campinas` writes
`Campinas, SP` into the paired text field — not exactly the entry's
value. -/
theorem c9_city_selection_appends_suffix :
    (cidadeSelectChange "Campinas" blankBind).value = "Campinas, SP" ∧
    (cidadeSelectChange "Campinas" blankBind).value ≠ "Campinas" := by
  decide

/-- C9 amended: for a concrete entry (neither the placeholder value `""`
nor the `outra` option), the cities binding writes the entry's value
suffixed with `", SP"` while the specialties binding writes exactly the
entry's value; both focus the text field with the caret at the end of the
written text. -/
theorem c9_concrete_selection_fills_and_focuses
    (sel : String) (inp : BindState) (h1 : sel ≠ "") (h2 : sel ≠ "outra") :
    cidadeSelectChange sel inp
      = ⟨sel ++ ", SP", "Complete com rua, número e bairro se necessário", true,
          some (sel ++ ", SP").length⟩ ∧
    especialidadeSelectChange sel inp
      = ⟨sel, inp.placeholder, true, some sel.length⟩ := by
  constructor <;> simp [cidadeSelectChange, especialidadeSelectChange, h1, h2]

theorem c9_concrete_selection_witness :
    cidadeSelectChange "Campinas" blankBind
      = ⟨"Campinas, SP", "Complete com rua, número e bairro se necessário", true,
          some ("Campinas, SP" : String).length⟩ ∧
    especialidadeSelectChange "Pediatria" blankBind
      = ⟨"Pediatria", blankBind.placeholder, true,
          some ("Pediatria" : String).length⟩ :=
  ⟨(c9_concrete_selection_fills_and_focuses "Campinas" blankBind
      (by decide) (by decide)).1,
   (c9_concrete_selection_fills_and_focuses "Pediatria" blankBind
      (by decide) (by decide)).2⟩

/-! ### Claim C8 -/

theorem maskReplaceFirst_all_digits (d : List Char)
    (hall : d.all Char.isDigit = true) (hlen : 6 ≤ d.length) :
    maskReplaceFirst d = d.take 5 ++ '-' :: d.drop 5 := by
  obtain ⟨c, cs, rfl⟩ : ∃ c cs, d = c :: cs := by
    cases d with
    | nil => simp at hlen
    | cons c cs => exact ⟨c, cs, rfl⟩
  have hallmem : ∀ x ∈ c :: cs, x.isDigit = true := List.all_eq_true.mp hall
  have hg1len : ((c :: cs).take 5).length = 5 := by
    rw [List.length_take]; omega
  have hg1all : ((c :: cs).take 5).all Char.isDigit = true :=
    List.all_eq_true.mpr fun x hx => hallmem x (List.take_subset _ _ hx)
  have htw : ((c :: cs).drop 5).takeWhile Char.isDigit = (c :: cs).drop 5 :=
    List.takeWhile_eq_self_iff.mpr fun x hx => hallmem x (List.drop_subset _ _ hx)
  have hrestlen : 1 ≤ ((c :: cs).drop 5).length := by
    rw [List.length_drop]; omega
  have hg2len : 1 ≤ (((c :: cs).drop 5).take 3).length := by
    rw [List.length_take]; omega
  have hmatch : tryMaskMatch (c :: cs)
      = some ((c :: cs).take 5 ++ '-' :: ((c :: cs).drop 5).take 3,
          ((c :: cs).drop 5).drop (((c :: cs).drop 5).take 3).length) := by
    simp only [tryMaskMatch]
    rw [htw, if_pos ⟨hg1len, hg1all, hg2len⟩]
  have hdrop : ((c :: cs).drop 5).drop (((c :: cs).drop 5).take 3).length
      = ((c :: cs).drop 5).drop 3 := by
    rw [List.length_take]
    rcases Nat.le_total ((c :: cs).drop 5).length 3 with h3 | h3
    · rw [Nat.min_eq_right h3, List.drop_length, List.drop_eq_nil_of_le h3]
    · rw [Nat.min_eq_left h3]
  calc maskReplaceFirst (c :: cs)
      = ((c :: cs).take 5 ++ '-' :: ((c :: cs).drop 5).take 3)
          ++ ((c :: cs).drop 5).drop (((c :: cs).drop 5).take 3).length := by
        simp only [maskReplaceFirst]; rw [hmatch]
    _ = (c :: cs).take 5
          ++ '-' :: (((c :: cs).drop 5).take 3 ++ ((c :: cs).drop 5).drop 3) := by
        rw [hdrop, List.append_assoc, List.cons_append]
    _ = (c :: cs).take 5 ++ '-' :: (c :: cs).drop 5 := by
        rw [List.take_append_drop]

/-- C8: on every keystroke the mask first strips all non-digit characters;
with fewer than six digits the field holds just the digits; once at least
six digits are present the field holds the digits with a single `-`
re-inserted after the fifth digit (truncated to nine characters); the
resulting field value never exceeds nine characters and never contains
more than one separator. -/
theorem c8_mask_strips_separates_truncates (s : String) :
    ((stripNonDigitsL s.data).length < 6 →
      (formatCEP s).data = stripNonDigitsL s.data) ∧
    (6 ≤ (stripNonDigitsL s.data).length →
      (formatCEP s).data
        = ((stripNonDigitsL s.data).take 5
            ++ '-' :: (stripNonDigitsL s.data).drop 5).take 9 ∧
      (formatCEP s).data.count '-' = 1) ∧
    (formatCEP s).length ≤ 9 ∧
    (formatCEP s).data.count '-' ≤ 1 := by
  have hall : (stripNonDigitsL s.data).all Char.isDigit = true :=
    List.all_eq_true.mpr fun x hx => (List.mem_filter.mp hx).2
  have hallmem : ∀ x ∈ stripNonDigitsL s.data, x.isDigit = true :=
    List.all_eq_true.mp hall
  have hnotdash : ∀ x ∈ stripNonDigitsL s.data, x ≠ '-' := by
    intro x hx heq
    have hdig := hallmem x hx
    rw [heq] at hdig
    simp at hdig
  by_cases h6 : 6 ≤ (stripNonDigitsL s.data).length
  · have hmask := maskReplaceFirst_all_digits (stripNonDigitsL s.data) hall h6
    have hfc : formatCEP s
        = if 9 < (maskReplaceFirst (stripNonDigitsL s.data)).length then
            ⟨(maskReplaceFirst (stripNonDigitsL s.data)).take 9⟩
          else ⟨maskReplaceFirst (stripNonDigitsL s.data)⟩ := by
      simp only [formatCEP]
      rw [if_pos h6]
    have hdata : (formatCEP s).data
        = (maskReplaceFirst (stripNonDigitsL s.data)).take 9 := by
      rw [hfc]
      by_cases h9 : 9 < (maskReplaceFirst (stripNonDigitsL s.data)).length
      · rw [if_pos h9]
      · rw [if_neg h9, List.take_of_length_le (by omega)]
    have htake5len : ((stripNonDigitsL s.data).take 5).length = 5 := by
      rw [List.length_take]; omega
    have hdata9 : (formatCEP s).data
        = (stripNonDigitsL s.data).take 5
            ++ '-' :: ((stripNonDigitsL s.data).drop 5).take 3 := by
      rw [hdata, hmask, List.take_append_eq_append_take, htake5len,
        List.take_of_length_le (le_of_eq_of_le htake5len (by omega)),
        List.take_succ_cons]
    have hcount : (formatCEP s).data.count '-' = 1 := by
      rw [hdata9, List.count_append, List.count_cons_self,
        List.count_eq_zero.mpr (fun hmem =>
          hnotdash '-' (List.take_subset _ _ hmem) rfl),
        List.count_eq_zero.mpr (fun hmem =>
          hnotdash '-' (List.drop_subset _ _ (List.take_subset _ _ hmem)) rfl)]
    refine ⟨fun hlt => absurd h6 (by omega), fun _ => ⟨?_, hcount⟩, ?_, ?_⟩
    · rw [hdata, hmask]
    · show (formatCEP s).data.length ≤ 9
      rw [hdata, List.length_take]
      omega
    · rw [hcount]
  · push_neg at h6
    have h1 : ¬ 6 ≤ (stripNonDigitsL s.data).length := by omega
    have h2 : ¬ 9 < (stripNonDigitsL s.data).length := by omega
    have hfc : formatCEP s = ⟨stripNonDigitsL s.data⟩ := by
      simp [formatCEP, h1, h2]
    refine ⟨fun _ => by rw [hfc], fun hge => absurd hge (by omega), ?_, ?_⟩
    · show (formatCEP s).data.length ≤ 9
      rw [hfc]
      show (stripNonDigitsL s.data).length ≤ 9
      omega
    · rw [hfc]
      exact le_of_eq_of_le
        (List.count_eq_zero.mpr (fun hmem => hnotdash '-' hmem rfl)) (by omega)

theorem c8_mask_witness :
    (6 ≤ (stripNonDigitsL ("0 13 10 000 99" : String).data).length →
      (formatCEP "0 13 10 000 99").data
        = ((stripNonDigitsL ("0 13 10 000 99" : String).data).take 5
            ++ '-' :: (stripNonDigitsL ("0 13 10 000 99" : String).data).drop 5).take 9 ∧
      (formatCEP "0 13 10 000 99").data.count '-' = 1) ∧
    (formatCEP "0 13 10 000 99").length ≤ 9 ∧
    ((stripNonDigitsL ("013" : String).data).length < 6 →
      (formatCEP "013").data = stripNonDigitsL ("013" : String).data) := by
  have h1 := c8_mask_strips_separates_truncates "0 13 10 000 99"
  have h2 := c8_mask_strips_separates_truncates "013"
  exact ⟨h1.2.1, h1.2.2.1, h2.1⟩
